import Mathlib

/-!
Verification development for the media-downloader routing core
(`streamer.py`).  Python strings are embedded as `List Char`; each
definition below transcribes one function (or one expression) of the
source, with the source location noted in its comment.  External
collaborators (the HTTP stack, yt-dlp, Instaloader, the TikTok
resolution API) are modelled as an `Env` of oracle outcomes; everything
the repository's own code does with those outcomes is transcribed.
-/

set_option maxRecDepth 40000

abbrev Chars := List Char

/-- Characters replaced by `_`: regex class `[\\/*?:"<>|]` (streamer.py:22). -/
def illegalChars : Chars := ['\\', '/', '*', '?', ':', '"', '<', '>', '|']

/-- `re.sub(r'[\\/*?:"<>|]', "_", filename)` (streamer.py:22). -/
def replIllegal (l : Chars) : Chars :=
  l.map (fun c => if c ∈ illegalChars then '_' else c)

/-- `re.sub(r'\.+', '.', sanitized)`: collapse every run of dots to one dot
(streamer.py:23). -/
def collapseDots : Chars → Chars
  | [] => []
  | [c] => [c]
  | c :: d :: t =>
    if c = '.' ∧ d = '.' then collapseDots (d :: t)
    else c :: collapseDots (d :: t)

/-- Whitespace stripped by Python `str.strip()` (ASCII subset). -/
def pyWs (c : Char) : Bool :=
  c = ' ' || c = '\t' || c = '\n' || c = '\r' || c = '\x0b' || c = '\x0c'

/-- Strip matching characters from the right end. -/
def stripRight (p : Char → Bool) (l : Chars) : Chars :=
  (l.reverse.dropWhile p).reverse

/-- Strip matching characters from both ends (Python `str.strip`). -/
def pyStrip (p : Char → Bool) (l : Chars) : Chars :=
  stripRight p (l.dropWhile p)

def isDot (c : Char) : Bool := c = '.'

/-- Index of the first `'.'`, if any. -/
def idxOfDot : Chars → Option Nat
  | [] => none
  | c :: t => if c = '.' then some 0 else (idxOfDot t).map (· + 1)

/-- Index of the last `'.'`, if any. -/
def lastDotIdx (l : Chars) : Option Nat :=
  (idxOfDot l.reverse).map (fun r => l.length - 1 - r)

/-- `os.path.splitext` on a string without path separators: split at the last
dot, except that a basename consisting only of leading dots up to that dot has
no extension (CPython `genericpath._splitext`). -/
def splitext (l : Chars) : Chars × Chars :=
  match lastDotIdx l with
  | none => (l, [])
  | some i =>
    if (l.take i).all (fun c => c = '.') then (l, [])
    else (l.take i, l.drop i)

/-- Python slice `l[:k]` for a possibly negative bound `k`. -/
def pySliceTo (l : Chars) (k : Int) : Chars :=
  if 0 ≤ k then l.take k.toNat else l.take (l.length - (-k).toNat)

/-- The cleaning phase of `sanitize_filename` (streamer.py:22-26): replace
illegal characters, collapse dots, `strip().strip('.')`, fall back to
`"downloaded_file"` when empty. -/
def cleanName (l : Chars) : Chars :=
  let s := pyStrip isDot (pyStrip pyWs (collapseDots (replIllegal l)))
  if s.isEmpty then "downloaded_file".toList else s

/-- `sanitize_filename` (streamer.py:20-31).  `max_len = 150`; when longer,
`name, ext = os.path.splitext(sanitized); sanitized = name[:max_len - len(ext) - 1] + ext`. -/
def sanitize_filename (l : Chars) : Chars :=
  let s := cleanName l
  if 150 < s.length then
    pySliceTo (splitext s).1 (150 - ((splitext s).2.length : Int) - 1) ++ (splitext s).2
  else s

-- quick sanity checks of the embedding on concrete values
example : sanitize_filename "a/b:c".toList = "a_b_c".toList := by decide
example : sanitize_filename "  ..name..  ".toList = "name".toList := by decide
example : sanitize_filename "".toList = "downloaded_file".toList := by decide

/-! ## Generic string helpers (Python semantics) -/

/-- Python `needle in haystack` substring test. -/
def isSubstr (n : Chars) : Chars → Bool
  | [] => n.isEmpty
  | c :: t => n.isPrefixOf (c :: t) || isSubstr n t

/-- Python `str.lower()` (ASCII range suffices for the inputs involved). -/
def lowerL (l : Chars) : Chars := l.map Char.toLower

/-- `os.path.basename` (posix): the part after the last `/`. -/
def osBasename (l : Chars) : Chars := (l.reverse.takeWhile (fun c => c ≠ '/')).reverse

/-- Python truthiness of an optional string (absent or empty is falsy). -/
def truthyS (o : Option Chars) : Bool :=
  match o with
  | some s => !s.isEmpty
  | none => false

/-- Python `a or b` where `a` is an optional string. -/
def pyOrS (a : Option Chars) (b : Chars) : Chars :=
  match a with
  | some s => if s.isEmpty then b else s
  | none => b

/-- Python truthiness of an optional integer (absent or 0 is falsy). -/
def truthyN (o : Option Nat) : Bool :=
  match o with
  | some n => n ≠ 0
  | none => false

/-- Python `a or b` on optional integers (`None` and `0` are falsy). -/
def pyOrN (a b : Option Nat) : Option Nat :=
  match a with
  | some n => if n = 0 then b else some n
  | none => b

/-- Hex digit value, for percent-decoding. -/
def hexVal (c : Char) : Option Nat :=
  if '0' ≤ c ∧ c ≤ '9' then some (c.toNat - '0'.toNat)
  else if 'a' ≤ c ∧ c ≤ 'f' then some (c.toNat - 'a'.toNat + 10)
  else if 'A' ≤ c ∧ c ≤ 'F' then some (c.toNat - 'A'.toNat + 10)
  else none

/-- `urllib.parse.unquote`: decode `%XX` escapes (modelled bytewise; multi-byte
UTF-8 recombination is not relevant to any claim). -/
def unquote : Chars → Chars
  | [] => []
  | '%' :: a :: b :: t =>
    match hexVal a, hexVal b with
    | some x, some y => Char.ofNat (16 * x + y) :: unquote t
    | _, _ => '%' :: unquote (a :: b :: t)
  | c :: t => c :: unquote t

/-! ## URL parsing (`urllib.parse.urlparse`, restricted to http/https) -/

/-- WHATWG cleanup done by modern `urlsplit`: strip leading/trailing C0
control and space characters, remove tab/newline anywhere. -/
def urlClean (l : Chars) : Chars :=
  (pyStrip (fun c => c.toNat ≤ 32) l).filter (fun c => c ≠ '\t' ∧ c ≠ '\n' ∧ c ≠ '\r')

/-- The text after `http://` or `https://` (the only schemes the router lets
through); empty for anything else. -/
def schemeRest (l : Chars) : Chars :=
  let u := urlClean l
  if "http://".toList.isPrefixOf u then u.drop 7
  else if "https://".toList.isPrefixOf u then u.drop 8
  else []

/-- `urlparse(link).netloc`. -/
def netlocOf (l : Chars) : Chars :=
  (schemeRest l).takeWhile (fun c => c ≠ '/' ∧ c ≠ '?' ∧ c ≠ '#')

/-- `urlparse(link).path`. -/
def pathOf (l : Chars) : Chars :=
  ((schemeRest l).drop (netlocOf l).length).takeWhile (fun c => c ≠ '?' ∧ c ≠ '#')

/-- `str.replace('www.', '')`: remove every occurrence, scanning left to
right without overlap (streamer.py:445). -/
def replaceWWW : Chars → Chars
  | 'w' :: 'w' :: 'w' :: '.' :: t => replaceWWW t
  | c :: t => c :: replaceWWW t
  | [] => []

/-- `parsed_url.netloc.lower().replace('www.', '')` (streamer.py:444-445). -/
def domainOf (link : Chars) : Chars := replaceWWW (lowerL (netlocOf link))

/-- `link and link.strip().startswith(('http://', 'https://'))`
(streamer.py:440). -/
def schemeOk (link : Chars) : Bool :=
  !link.isEmpty &&
    ("http://".toList.isPrefixOf (pyStrip pyWs link) ||
     "https://".toList.isPrefixOf (pyStrip pyWs link))

example : domainOf "https://WWW.m.YouTube.com/watch?v=abc".toList = "m.youtube.com".toList := by
  decide
example : pathOf "https://instagram.com/stories?u=/p/abc".toList = "/stories".toList := by decide
example : schemeOk "  https://a ".toList = true := by decide
example : schemeOk "ftp://a".toList = false := by decide

/-! ## Regex models used by the providers -/

/-- `re.search(r'/d/([^/]+)', link)`: leftmost occurrence of `/d/` followed by
at least one non-`/` character; the greedy capture (streamer.py:330). -/
def driveIdOf : Chars → Option Chars
  | [] => none
  | c :: t =>
    if "/d/".toList.isPrefixOf (c :: t) then
      let cap := ((c :: t).drop 3).takeWhile (fun x => x ≠ '/')
      if cap.isEmpty then driveIdOf t else some cap
    else driveIdOf t

/-- `\w` of the regexes (ASCII view) plus `-` as used in `[\w-]`. -/
def isWordDash (c : Char) : Bool := c.isAlphanum || c = '_' || c = '-'

/-- One anchored attempt of `re.search(r"/(?:p|reel|tv)/([\w-]+)", link)`. -/
def igShortAt (l : Chars) : Option Chars :=
  if "/p/".toList.isPrefixOf l then
    let cap := (l.drop 3).takeWhile isWordDash
    if cap.isEmpty then none else some cap
  else if "/reel/".toList.isPrefixOf l then
    let cap := (l.drop 6).takeWhile isWordDash
    if cap.isEmpty then none else some cap
  else if "/tv/".toList.isPrefixOf l then
    let cap := (l.drop 4).takeWhile isWordDash
    if cap.isEmpty then none else some cap
  else none

/-- `re.search(r"/(?:p|reel|tv)/([\w-]+)", link)` over the whole link
(streamer.py:57): leftmost match wins. -/
def igShortcode : Chars → Option Chars
  | [] => none
  | c :: t =>
    match igShortAt (c :: t) with
    | some s => some s
    | none => igShortcode t

/-- `\W+` run replacement: `re.sub(r'\W+', '_', s)` (streamer.py:104). -/
def isWordChar (c : Char) : Bool := c.isAlphanum || c = '_'

def subNonWord : Chars → Chars
  | [] => []
  | [c] => if isWordChar c then [c] else ['_']
  | c :: d :: t =>
    if ¬isWordChar c ∧ ¬isWordChar d then subNonWord (d :: t)
    else (if isWordChar c then c else '_') :: subNonWord (d :: t)

/-- One anchored attempt of the Content-Disposition filename regex
`filename\*?=(?:UTF-8\'\')?([^;]+)` with IGNORECASE (streamer.py:404),
including the backtracking case where the optional `UTF-8''` group is
released because nothing follows it. -/
def cdMatchAt (l : Chars) : Option Chars :=
  if "filename".toList.isPrefixOf (lowerL l) then
    let r0 := l.drop 8
    let r1 := if r0.head? = some '*' then r0.drop 1 else r0
    if r1.head? = some '=' then
      let r2 := r1.drop 1
      let cap :=
        if "utf-8\x27\x27".toList.isPrefixOf (lowerL r2) ∧
            ¬((r2.drop 7).takeWhile (fun c => c ≠ ';')).isEmpty then
          (r2.drop 7).takeWhile (fun c => c ≠ ';')
        else r2.takeWhile (fun c => c ≠ ';')
      if cap.isEmpty then none else some cap
    else none
  else none

/-- `re.search` of the Content-Disposition filename regex: leftmost match. -/
def cdSearch : Chars → Option Chars
  | [] => none
  | c :: t =>
    match cdMatchAt (c :: t) with
    | some g => some g
    | none => cdSearch t

example : driveIdOf "https://drive.google.com/file/d/ABC123/view".toList = some "ABC123".toList := by
  decide
example : igShortcode "https://www.instagram.com/reel/XYZ/".toList = some "XYZ".toList := by decide
example : igShortcode "https://instagram.com/stories?u=/p/abc".toList = some "abc".toList := by
  decide
example : igShortcode "/stories".toList = none := by decide
example : cdSearch "attachment; filename=\"report.pdf\"".toList = some "\"report.pdf\"".toList := by
  decide

/-! ## The classifier (dispatch conditions of `route_download`, streamer.py:438-493) -/

/-- The provider strategies of the spec (one per retrieval approach). -/
inductive Provider
  | googleDrive
  | socialPost
  | shortVideo
  | videoExtractor
  | genericHTTP
deriving DecidableEq

/-- `ydl_domains` (streamer.py:483-487).  Note: the source has
`'twitter.com', 'x.com' 'vimeo.com',` — a missing comma, so Python
concatenates the two adjacent literals into the single entry
`'x.comvimeo.com'`. -/
def ydl_domains : List Chars :=
  ["youtube.com", "youtu.be", "facebook.com", "fb.watch", "twitter.com",
   "x.comvimeo.com",
   "dailymotion.com", "soundcloud.com", "twitch.tv", "bandcamp.com",
   "bilibili.com", "nicovideo.jp", "vk.com", "ok.ru"].map String.toList

/-- `is_ydl_target` (streamer.py:490-491): exact match or dot-subdomain of a
listed domain, plus the explicit youtube checks. -/
def is_ydl_target (dom : Chars) : Bool :=
  ydl_domains.any (fun d => dom = d || ('.' :: d).isSuffixOf dom) ||
  "youtube.com".toList.isPrefixOf dom || "youtu.be".toList.isPrefixOf dom ||
  dom = "youtu.be".toList

/-- `classify` of spec section 4.2: transcription of the dispatch conditions
of `route_download` (streamer.py:440-493), listing the candidate providers the
router will consider for the link (the selected branch first, Generic HTTP
appended where the branch itself falls back to `download_generic`). -/
def classify (link : Chars) : Option (List Provider) :=
  if schemeOk link then
    some
      (if isSubstr "drive.google.com".toList (domainOf link) then [Provider.googleDrive]
       else if isSubstr "instagram.com".toList (domainOf link) then [Provider.socialPost]
       else if isSubstr "tiktok.com".toList (domainOf link) then [Provider.shortVideo]
       else if is_ydl_target (domainOf link) then [Provider.videoExtractor, Provider.genericHTTP]
       else [Provider.genericHTTP])
  else none

example : classify "https://drive.google.com/file/d/ABC123/view".toList =
    some [Provider.googleDrive] := by decide
example : classify "https://example.com/video.mp4".toList = some [Provider.genericHTTP] := by decide
example : classify "https://m.youtube.com/watch?v=abc".toList =
    some [Provider.videoExtractor, Provider.genericHTTP] := by decide

/-! ## Result model: provider invocations (network operations) and
user-visible events of one routing pass -/

/-- Network operation of a provider, in invocation order. -/
inductive Call
  | driveHead      -- requests.head on the rewritten Drive url (streamer.py:457)
  | igFetch        -- instaloader Post.from_shortcode (streamer.py:79)
  | igDl           -- instaloader L.download_post (streamer.py:120)
  | igRawGet       -- requests.get fallback inside download_instagram (streamer.py:150)
  | ttApi          -- requests.get on the tikwm api (streamer.py:345)
  | ttGet          -- requests.get on the resolved TikTok media url (streamer.py:357)
  | genGet         -- requests.get inside download_generic (streamer.py:394)
  | ydlProbe       -- yt-dlp extract_info, download=False (streamer.py:217)
  | ydlDl          -- yt-dlp ydl.download (streamer.py:277)
deriving DecidableEq

/-- User-facing error/warning message sites (`st.error` /
`status_placeholder.error` / `.warning`), one constructor per source site;
payloads carry the interpolated text. -/
inductive Msg
  | invalidURL                    -- streamer.py:441
  | driveParseFail                -- streamer.py:453
  | driveHtmlPage                 -- streamer.py:460
  | driveNet (m : Chars)          -- streamer.py:469
  | driveNetStatus (code : Nat)   -- streamer.py:469 via raise_for_status
  | igBadFormat                   -- streamer.py:61
  | igNoTarget                    -- streamer.py:97
  | igPrivate                     -- streamer.py:160
  | igLogin                       -- streamer.py:165
  | igNotFound                    -- streamer.py:170
  | igBadResp (m : Chars)         -- streamer.py:176
  | igConn (m : Chars)            -- streamer.py:182
  | igNet (m : Chars)             -- streamer.py:187
  | igNetStatus (code : Nat)      -- streamer.py:187 via raise_for_status
  | igGeneral (m : Chars)         -- streamer.py:197
  | ttApiErr (m : Chars)          -- streamer.py:367
  | ttNet (m : Chars)             -- streamer.py:372
  | ttNetStatus (code : Nat)      -- streamer.py:372 via raise_for_status
  | ttJson (m : Chars)            -- streamer.py:377
  | genNet (m : Chars)            -- streamer.py:426
  | genNetStatus (code : Nat)     -- streamer.py:426 via raise_for_status
  | ydlUnsupportedWarn            -- streamer.py:503 (warning)
  | ydlAnalysisFailed (m : Chars) -- streamer.py:506
  | ydlDlFailed (m : Chars)       -- streamer.py:544
  | ydlNoInfo (m : Chars)         -- streamer.py:547
  | genericFallbackWarn           -- streamer.py:552 (warning)
deriving DecidableEq

/-- User-visible event: a successful download button
(`display_download_button`, streamer.py:33-45) or an error/warning. -/
inductive Ev
  | button (filename : Chars) (mime : Chars) (data : List Nat)
  | err (m : Msg)
  | warn (m : Msg)
deriving DecidableEq

/-- Outcome of one routing pass: the provider network operations performed,
in order, and the user-visible events, in order. -/
structure RouteRes where
  calls : List Call
  events : List Ev
deriving DecidableEq

/-- The user-facing size display of the yt-dlp branch
(`size_info`, streamer.py:510): `"~x MB"` when the size is truthy, else
`"Unknown Size"` (the MB rendering is display-only and kept abstract). -/
inductive SizeInfo
  | approxMB (bytes : Nat)
  | unknown
deriving DecidableEq

def sizeInfoOf (fs : Option Nat) : SizeInfo :=
  match fs with
  | some n => if n = 0 then SizeInfo.unknown else SizeInfo.approxMB n
  | none => SizeInfo.unknown

/-! ## External-world oracle (`Env`) -/

/-- An HTTP response as seen by the code: status plus the two headers the
code reads, and the body bytes. -/
structure HttpResp where
  status : Nat
  contentDisposition : Option Chars
  contentType : Option Chars
  body : List Nat
deriving DecidableEq

/-- `requests.get`: connection-level failure or a response
(`raise_for_status` on a 4xx/5xx response is handled by the caller). -/
inductive GetOutcome
  | netErr (m : Chars)
  | resp (r : HttpResp)
deriving DecidableEq

/-- `requests.head` for the Drive pre-check: status and `Content-Type`. -/
inductive HeadOutcome
  | netErr (m : Chars)
  | resp (status : Nat) (contentType : Option Chars)
deriving DecidableEq

/-- One entry of yt-dlp's `requested_formats`. -/
structure Fmt where
  filesize : Option Nat
  filesize_approx : Option Nat
deriving DecidableEq

/-- The fields of yt-dlp's `info_dict` that `get_video_info_ydl` reads
(streamer.py:217-226); a `none` entry of `requested_formats` is a falsy
element skipped by the `if fmt` filter. -/
structure InfoDict where
  filesize_approx : Option Nat
  filesize : Option Nat
  requested_formats : Option (List (Option Fmt))
  format_id : Option Chars
  title : Option Chars
  underscore_filename : Option Chars   -- the '_filename' key
  ext : Option Chars
deriving DecidableEq

/-- Outcome of the yt-dlp metadata probe. -/
inductive ProbeOutcome
  | ok (d : InfoDict)
  | dlErr (m : Chars)   -- yt_dlp.utils.DownloadError with message m
  | exc (m : Chars)     -- any other exception
deriving DecidableEq

/-- Outcome of `ydl.download`: the files found in the temporary directory
afterwards (name, bytes) in `os.listdir` order, or an exception. -/
inductive YdlDlOutcome
  | ok (files : List (Chars × List Nat))
  | dlErr (m : Chars)
  | exc (m : Chars)
deriving DecidableEq

/-- The fields of the tikwm `data` object the code reads
(streamer.py:349-352); `authorUniqueId` flattens
`data["author"]["unique_id"]` with absence at either level as `none`. -/
structure TtData where
  play : Option Chars
  title : Option Chars
  authorUniqueId : Option Chars
deriving DecidableEq

structure TtResp where
  code : Option Int
  data : Option TtData
  msg : Option Chars
deriving DecidableEq

/-- `response.json()` result: decode failure or the parsed envelope. -/
inductive TtBody
  | notJson (m : Chars)
  | json (r : TtResp)
deriving DecidableEq

inductive TtApiOutcome
  | netErr (m : Chars)
  | resp (status : Nat) (body : TtBody)
deriving DecidableEq

/-- The fields of an Instaloader `Post` that `download_instagram` reads
(streamer.py:82-105); `dateStr` is `post.date_utc.strftime("%Y%m%d")`. -/
structure InstaPost where
  is_video : Bool
  video_url : Option Chars
  url : Option Chars
  display_url : Option Chars
  owner_username : Option Chars
  caption : Option Chars
  dateStr : Chars
deriving DecidableEq

/-- Outcome of `Post.from_shortcode`, one constructor per handled
exception class (streamer.py:159-199). -/
inductive InstaFetch
  | privateNotFollowed
  | loginRequired
  | notFound
  | badResponse (m : Chars)
  | connErr (m : Chars)
  | generalExc (m : Chars)
  | ok (p : InstaPost)
deriving DecidableEq

/-- Outcome of `L.download_post`: the files left in the temporary directory
(name, bytes) in `os.listdir` order, or an exception. -/
inductive InstaDlOutcome
  | ok (files : List (Chars × List Nat))
  | exc (m : Chars)
deriving DecidableEq

/-- The external world for one routing pass.  `get` and `head` are indexed by
the requested URL; `ydlDl` by the output-template base name the code passes
to yt-dlp. -/
structure Env where
  get : Chars → GetOutcome
  head : Chars → HeadOutcome
  tiktokApi : TtApiOutcome
  ydlInfo : ProbeOutcome
  ydlDl : Chars → YdlDlOutcome
  instaFetch : InstaFetch
  instaDl : InstaDlOutcome
  cookie : Bool    -- os.path.exists('cookies.txt')

/-! ## Generic HTTP provider (`download_generic`, streamer.py:386-433) -/

/-- Filename detection of `download_generic` (streamer.py:401-413):
Content-Disposition filename if present, with a dot and not ending in a dot;
else the URL path's last segment when it contains a dot; else the constant
`"downloaded_file"`. -/
def genericName (link : Chars) (r : HttpResp) : Chars :=
  let fn1 : Chars :=
    match r.contentDisposition with
    | some cd =>
      match cdSearch cd with
      | some g =>
        let pn := unquote (pyStrip (fun c => c = '"') (pyStrip pyWs g))
        if pn.contains '.' ∧ ¬(pn.getLast? = some '.') then sanitize_filename pn
        else "downloaded_file".toList
      | none => "downloaded_file".toList
    | none => "downloaded_file".toList
  if fn1 = "downloaded_file".toList then
    let pp := pyStrip (fun c => c = '/') (pathOf link)
    if ¬pp.isEmpty ∧ (osBasename pp).contains '.' then
      let f := sanitize_filename (unquote (osBasename pp))
      if f.isEmpty then fn1 else f    -- the `or file_name` on line 413
    else fn1
  else fn1

/-- `response.headers.get('content-type', 'application/octet-stream').split(';')[0]`
(streamer.py:415). -/
def genericCT (r : HttpResp) : Chars :=
  (r.contentType.getD "application/octet-stream".toList).takeWhile (fun c => c ≠ ';')

/-- The download button shown by a successful generic download
(streamer.py:422). -/
def genericSuccessEv (link : Chars) (r : HttpResp) : Ev :=
  Ev.button (genericName link r) (genericCT r) r.body

/-- `download_generic` (streamer.py:386-433); the returned boolean of the
source is unused by `route_download`, so only calls/events are produced. -/
def download_generic (link : Chars) (env : Env) : RouteRes :=
  match env.get link with
  | GetOutcome.netErr m => ⟨[Call.genGet], [Ev.err (Msg.genNet m)]⟩
  | GetOutcome.resp r =>
    if 400 ≤ r.status then ⟨[Call.genGet], [Ev.err (Msg.genNetStatus r.status)]⟩
    else ⟨[Call.genGet], [genericSuccessEv link r]⟩

/-! ## Google Drive provider (streamer.py:327-337 and 448-471) -/

/-- The direct-export URL built from the extracted file id (streamer.py:333). -/
def driveURL (id : Chars) : Chars :=
  "https://drive.google.com/uc?export=download&id=".toList ++ id ++ "&confirm=t".toList

/-- `get_drive_download_link` (streamer.py:327-337). -/
def get_drive_download_link (link : Chars) : Option Chars :=
  (driveIdOf link).map driveURL

/-- The Drive branch of `route_download` (streamer.py:448-471): parse the
share URL, HEAD the direct-export URL, reject an HTML page, else delegate to
`download_generic`. -/
def driveFlow (link : Chars) (env : Env) : RouteRes :=
  match get_drive_download_link link with
  | none => ⟨[], [Ev.err Msg.driveParseFail]⟩
  | some durl =>
    match env.head durl with
    | HeadOutcome.netErr m => ⟨[Call.driveHead], [Ev.err (Msg.driveNet m)]⟩
    | HeadOutcome.resp st ct =>
      if 400 ≤ st then ⟨[Call.driveHead], [Ev.err (Msg.driveNetStatus st)]⟩
      else if isSubstr "text/html".toList (lowerL (ct.getD [])) then
        ⟨[Call.driveHead], [Ev.err Msg.driveHtmlPage]⟩
      else
        ⟨Call.driveHead :: (download_generic durl env).calls, (download_generic durl env).events⟩

/-! ## Short-Video (TikTok) provider (`download_tiktok`, streamer.py:339-384) -/

/-- `data.get("code") == 0 and data.get("data") and data['data'].get("play")`
(streamer.py:349): the playable media URL on success. -/
def ttSuccess (r : TtResp) : Option (TtData × Chars) :=
  if r.code = some 0 then
    match r.data with
    | some d =>
      match d.play with
      | some p => if ¬p.isEmpty then some (d, p) else none
      | none => none
    | none => none
  else none

def tiktokFlow (_link : Chars) (env : Env) : RouteRes :=
  match env.tiktokApi with
  | TtApiOutcome.netErr m => ⟨[Call.ttApi], [Ev.err (Msg.ttNet m)]⟩
  | TtApiOutcome.resp st body =>
    if 400 ≤ st then ⟨[Call.ttApi], [Ev.err (Msg.ttNetStatus st)]⟩
    else
      match body with
      | TtBody.notJson m => ⟨[Call.ttApi], [Ev.err (Msg.ttJson m)]⟩
      | TtBody.json r =>
        match ttSuccess r with
        | some (d, p) =>
          let title := d.title.getD "tiktok_video".toList
          let author := d.authorUniqueId.getD "user".toList
          let file_name := sanitize_filename (author ++ '_' :: (title ++ ".mp4".toList))
          match env.get p with
          | GetOutcome.netErr m => ⟨[Call.ttApi, Call.ttGet], [Ev.err (Msg.ttNet m)]⟩
          | GetOutcome.resp vr =>
            if 400 ≤ vr.status then
              ⟨[Call.ttApi, Call.ttGet], [Ev.err (Msg.ttNetStatus vr.status)]⟩
            else
              ⟨[Call.ttApi, Call.ttGet], [Ev.button file_name "video/mp4".toList vr.body]⟩
        | none =>
          ⟨[Call.ttApi], [Ev.err (Msg.ttApiErr (r.msg.getD "Unknown API error".toList))]⟩

/-! ## Social Post (Instagram) provider (`download_instagram`, streamer.py:49-199) -/

def igMime (isVid : Bool) : Chars :=
  (if isVid then "video/mp4" else "image/jpeg").toList

/-- The `requests.get(target_url)` fallback taken when `L.download_post`
fails or leaves no media file (streamer.py:145-156). -/
def igFallback (env : Env) (tgt filename : Chars) (isVid : Bool) : RouteRes :=
  match env.get tgt with
  | GetOutcome.netErr m => ⟨[Call.igFetch, Call.igDl, Call.igRawGet], [Ev.err (Msg.igNet m)]⟩
  | GetOutcome.resp r =>
    if 400 ≤ r.status then
      ⟨[Call.igFetch, Call.igDl, Call.igRawGet], [Ev.err (Msg.igNetStatus r.status)]⟩
    else
      ⟨[Call.igFetch, Call.igDl, Call.igRawGet], [Ev.button filename (igMime isVid) r.body]⟩

def instaFlow (link : Chars) (env : Env) : RouteRes :=
  match igShortcode link with
  | none => ⟨[], [Ev.err Msg.igBadFormat]⟩
  | some sc =>
    match env.instaFetch with
    | InstaFetch.privateNotFollowed => ⟨[Call.igFetch], [Ev.err Msg.igPrivate]⟩
    | InstaFetch.loginRequired => ⟨[Call.igFetch], [Ev.err Msg.igLogin]⟩
    | InstaFetch.notFound => ⟨[Call.igFetch], [Ev.err Msg.igNotFound]⟩
    | InstaFetch.badResponse m => ⟨[Call.igFetch], [Ev.err (Msg.igBadResp m)]⟩
    | InstaFetch.connErr m => ⟨[Call.igFetch], [Ev.err (Msg.igConn m)]⟩
    | InstaFetch.generalExc m => ⟨[Call.igFetch], [Ev.err (Msg.igGeneral m)]⟩
    | InstaFetch.ok p =>
      let target : Option Chars :=
        if p.is_video && truthyS p.video_url then p.video_url
        else if !p.is_video && truthyS p.url then p.url
        else p.display_url
      if ¬truthyS target then ⟨[Call.igFetch], [Ev.err Msg.igNoTarget]⟩
      else
        let tgt := target.getD []
        let owner := pyOrS p.owner_username "instagram".toList
        let caption_part :=
          if truthyS p.caption then subNonWord ((p.caption.getD []).take 30) else p.dateStr
        let extn := (if p.is_video then ".mp4" else ".jpg").toList
        let filename := sanitize_filename (owner ++ '_' :: (sc ++ '_' :: (caption_part ++ extn)))
        match env.instaDl with
        | InstaDlOutcome.ok files =>
          match files.find? (fun f =>
              ".mp4".toList.isSuffixOf f.1 || ".jpg".toList.isSuffixOf f.1) with
          | some f =>
            let fn2 :=
              if (splitext filename).2 ≠ (splitext f.1).2 then
                sanitize_filename ((splitext filename).1 ++ (splitext f.1).2)
              else filename
            ⟨[Call.igFetch, Call.igDl], [Ev.button fn2 (igMime p.is_video) f.2]⟩
          | none => igFallback env tgt filename p.is_video
        | InstaDlOutcome.exc _ => igFallback env tgt filename p.is_video

/-! ## Generic Video Extractor provider (yt-dlp, streamer.py:203-323) -/

/-- Python truthiness of the optional `requested_formats` list. -/
def truthyFmts (o : Option (List (Option Fmt))) : Bool :=
  match o with
  | some l => !l.isEmpty
  | none => false

/-- `get_video_info_ydl` (streamer.py:203-238): the size computation of
lines 218-222, the filename of lines 224-226, and the `error_map`
translation of lines 230-238. -/
def get_video_info_ydl (env : Env) : Option Nat × Chars :=
  match env.ydlInfo with
  | ProbeOutcome.ok d =>
    let fs0 := pyOrN d.filesize_approx d.filesize
    let fs : Option Nat :=
      if ¬truthyN fs0 ∧ truthyFmts d.requested_formats then
        some ((d.requested_formats.getD []).foldl (fun acc fo =>
          acc + match fo with
                | none => 0     -- falsy entries are skipped by `if fmt`
                | some f =>
                  let a := f.filesize.getD 0
                  if a ≠ 0 then a else f.filesize_approx.getD 0) 0)
      else if ¬truthyN fs0 ∧ truthyS d.format_id then d.filesize
      else fs0
    let title := d.title.getD "download".toList
    let fname0 := pyOrS d.underscore_filename
      (sanitize_filename title ++ '.' :: (d.ext.getD "mp4".toList))
    (fs, sanitize_filename (osBasename fname0))
  | ProbeOutcome.dlErr e =>
    if isSubstr "Unsupported URL".toList e then (none, "Unsupported URL".toList)
    else if isSubstr "HTTP Error 403".toList e then (none, "Access Denied (403)".toList)
    else if isSubstr "Login required".toList e then (none, "Login Required".toList)
    else (none, "yt-dlp Error".toList)
  | ProbeOutcome.exc _ => (none, "Error fetching info".toList)

/-- The error constants `route_download` compares the probe result against
(streamer.py:499). -/
def badAnalysis : List Chars :=
  ["Unsupported URL", "Access Denied (403)", "Login Required", "yt-dlp Error",
   "Error fetching info"].map String.toList

/-- `sanitize_filename(os.path.splitext(filename_hint)[0])`: the base name of
the yt-dlp output template (streamer.py:247). -/
def ydlBaseName (hint : Chars) : Chars := sanitize_filename (splitext hint).1

/-- The long 403 message of streamer.py:301-310 (`\x27` is an apostrophe). -/
def ydl403Msg (cookie : Bool) : Chars :=
  ("Error: Access Denied (HTTP 403 Forbidden).\nThis often means the platform blocked the request. Possible reasons:\n- Video requires login (age/privacy restricted).\n- High traffic from server / Rate limiting.\n- Platform changes blocking yt-dlp (ensure it\x27s up-to-date via requirements.txt).\n- Regional blocks.").toList
  ++ (if cookie then "\n- Authentication via cookies failed or was insufficient.".toList else [])

/-- `download_with_ydl` (streamer.py:241-323): on success the first
`os.listdir` entry is read back and returned; the error translation of
lines 297-321. -/
def download_with_ydl (_link hint : Chars) (env : Env) : Option (List Nat) × Chars :=
  match env.ydlDl (ydlBaseName hint) with
  | YdlDlOutcome.ok files =>
    match files with
    | [] => (none, "Download failed (no file generated).".toList)
    | f :: _ => (some f.2, f.1)
  | YdlDlOutcome.dlErr e =>
    if isSubstr "HTTP Error 403".toList e then (none, ydl403Msg env.cookie)
    else if isSubstr "Unsupported URL".toList e then
      (none, "Error: Unsupported URL for yt-dlp.".toList)
    else if isSubstr "confirm your age".toList (lowerL e) ∨
        isSubstr "login required".toList (lowerL e) ∨
        isSubstr "video is private".toList (lowerL e) then
      (none,
       if env.cookie then
         "Error: Login/Age check failed even with cookies. Cookies might be expired or invalid.".toList
       else
         "Error: This content requires login/age verification (Cookies needed).".toList)
    else (none, "yt-dlp Download Error: ".toList ++ e.take 150 ++ "...".toList)
  | YdlDlOutcome.exc m => (none, "An unexpected error occurred: ".toList ++ m)

/-- `final_filename = message if message else filename_or_error`
(streamer.py:526). -/
def finalNameOf (message fn : Chars) : Chars := if message.isEmpty then fn else message

/-- `final_filename.split('.')[-1].lower()` when a dot is present, else `''`
(streamer.py:527-528). -/
def extOfName (l : Chars) : Chars :=
  if l.contains '.' then lowerL (l.reverse.takeWhile (fun c => c ≠ '.')).reverse else []

/-- `mime_map` (streamer.py:531-537). -/
def mime_map : List (Chars × Chars) :=
  [("mp4", "video/mp4"), ("mkv", "video/x-matroska"), ("webm", "video/webm"),
   ("mov", "video/quicktime"), ("avi", "video/x-msvideo"),
   ("mp3", "audio/mpeg"), ("wav", "audio/wav"), ("ogg", "audio/ogg"), ("m4a", "audio/mp4"),
   ("jpg", "image/jpeg"), ("jpeg", "image/jpeg"), ("png", "image/png"),
   ("webp", "image/webp"), ("gif", "image/gif")].map (fun p => (p.1.toList, p.2.toList))

/-- `mime_map.get(ext, 'application/octet-stream')` (streamer.py:538). -/
def mimeFor (fnl : Chars) : Chars :=
  (mime_map.lookup (extOfName fnl)).getD "application/octet-stream".toList

/-- Python truthiness of an optional byte payload: `if file_data:` is false
for `None` and for an empty byte string alike (streamer.py:523). -/
def truthyBytes (o : Option (List Nat)) : Bool :=
  match o with
  | some b => !b.isEmpty
  | none => false

/-- What the yt-dlp branch does after the analysis check (streamer.py:509-547):
download only when `file_size is not None`; the success test `if file_data:`
is byte-payload truthiness (a zero-byte file is falsy and takes the error
branch); on no size, an error unless the Unsupported-URL generic fallback
already ran. -/
def ydlAfter (link : Chars) (env : Env) (fs : Option Nat) (fn : Chars) : RouteRes :=
  if fs.isSome then
    if truthyBytes (download_with_ydl link fn env).1 then
      ⟨[Call.ydlDl],
       [Ev.button (finalNameOf (download_with_ydl link fn env).2 fn)
          (mimeFor (finalNameOf (download_with_ydl link fn env).2 fn))
          ((download_with_ydl link fn env).1.getD [])]⟩
    else ⟨[Call.ydlDl], [Ev.err (Msg.ydlDlFailed (download_with_ydl link fn env).2)]⟩
  else if fn ≠ "Unsupported URL".toList then ⟨[], [Ev.err (Msg.ydlNoInfo fn)]⟩
  else ⟨[], []⟩

/-- The yt-dlp branch of `route_download` (streamer.py:493-547) as a function
of the probe result.  On a probe result equal to `"Unsupported URL"` the
generic download runs as fallback and control falls through (no `return` on
line 504); every branch then continues with `ydlAfter`. -/
def ydlFlowWith (link : Chars) (env : Env) (fs : Option Nat) (fn : Chars) : RouteRes :=
  if badAnalysis.contains fn then
    if fn = "Unsupported URL".toList then
      ⟨Call.ydlProbe :: ((download_generic link env).calls ++ (ydlAfter link env fs fn).calls),
       Ev.warn Msg.ydlUnsupportedWarn ::
         ((download_generic link env).events ++ (ydlAfter link env fs fn).events)⟩
    else ⟨[Call.ydlProbe], [Ev.err (Msg.ydlAnalysisFailed fn)]⟩
  else
    ⟨Call.ydlProbe :: (ydlAfter link env fs fn).calls, (ydlAfter link env fs fn).events⟩

def ydlFlow (link : Chars) (env : Env) : RouteRes :=
  ydlFlowWith link env (get_video_info_ydl env).1 (get_video_info_ydl env).2

/-! ## The router (`route_download`, streamer.py:438-553) -/

def route (link : Chars) (env : Env) : RouteRes :=
  if schemeOk link then
    if isSubstr "drive.google.com".toList (domainOf link) then driveFlow link env
    else if isSubstr "instagram.com".toList (domainOf link) then instaFlow link env
    else if isSubstr "tiktok.com".toList (domainOf link) then tiktokFlow link env
    else if is_ydl_target (domainOf link) then ydlFlow link env
    else
      ⟨(download_generic link env).calls,
       Ev.warn Msg.genericFallbackWarn :: (download_generic link env).events⟩
  else ⟨[], [Ev.err Msg.invalidURL]⟩

/-! ## Concrete environments used by witnesses and counterexamples -/

/-- A default world: every external operation fails with a connection error. -/
def env0 : Env where
  get := fun _ => GetOutcome.netErr "x".toList
  head := fun _ => HeadOutcome.netErr "x".toList
  tiktokApi := TtApiOutcome.netErr "x".toList
  ydlInfo := ProbeOutcome.exc "x".toList
  ydlDl := fun _ => YdlDlOutcome.exc "x".toList
  instaFetch := InstaFetch.generalExc "x".toList
  instaDl := InstaDlOutcome.exc "x".toList
  cookie := false

/-- A generic HTTP response that succeeds. -/
def respOk : HttpResp :=
  { status := 200, contentDisposition := none,
    contentType := some "video/mp4".toList, body := [7, 7] }

-- sanity checks of the router model
example :
    route "  https://a".toList env0 =
      ⟨[Call.genGet], [Ev.warn Msg.genericFallbackWarn, Ev.err (Msg.genNet "x".toList)]⟩ := by
  decide
example :
    route "https://example.com/f.mp4".toList { env0 with get := fun _ => GetOutcome.resp respOk } =
      ⟨[Call.genGet],
       [Ev.warn Msg.genericFallbackWarn,
        Ev.button "f.mp4".toList "video/mp4".toList [7, 7]]⟩ := by
  decide
example : route "notaurl".toList env0 = ⟨[], [Ev.err Msg.invalidURL]⟩ := by decide

/-! ## Properties of the filename sanitizer -/

theorem not_illegal_of_mem_replIllegal {c : Char} {l : Chars}
    (h : c ∈ replIllegal l) : c ∉ illegalChars := by
  simp only [replIllegal, List.mem_map] at h
  obtain ⟨a, _, ha⟩ := h
  by_cases hc : a ∈ illegalChars
  · rw [if_pos hc] at ha
    subst ha; decide
  · rw [if_neg hc] at ha
    subst ha; exact hc

theorem mem_of_mem_collapseDots : ∀ (l : Chars) (c : Char), c ∈ collapseDots l → c ∈ l := by
  intro l
  induction l with
  | nil => intro c h; simp [collapseDots] at h
  | cons a t ih =>
    intro c h
    cases t with
    | nil => simpa [collapseDots] using h
    | cons b u =>
      by_cases hab : a = '.' ∧ b = '.'
      · simp only [collapseDots, if_pos hab] at h
        exact List.mem_cons_of_mem a (ih c h)
      · simp only [collapseDots, if_neg hab] at h
        rcases List.mem_cons.1 h with h1 | h2
        · exact h1 ▸ List.mem_cons_self a (b :: u)
        · exact List.mem_cons_of_mem a (ih c h2)

theorem mem_of_mem_dropWhile {p : Char → Bool} :
    ∀ (l : Chars) (c : Char), c ∈ l.dropWhile p → c ∈ l := by
  intro l
  induction l with
  | nil => intro c h; simp at h
  | cons a t ih =>
    intro c h
    by_cases hp : p a
    · simp only [List.dropWhile, hp] at h
      exact List.mem_cons_of_mem a (ih c h)
    · simp only [List.dropWhile, hp] at h
      simpa using h

theorem mem_of_mem_stripRight {p : Char → Bool} {l : Chars} {c : Char}
    (h : c ∈ stripRight p l) : c ∈ l := by
  simp only [stripRight, List.mem_reverse] at h
  exact List.mem_reverse.1 (mem_of_mem_dropWhile l.reverse c h)

theorem mem_of_mem_pyStrip {p : Char → Bool} {l : Chars} {c : Char}
    (h : c ∈ pyStrip p l) : c ∈ l :=
  mem_of_mem_dropWhile l c (mem_of_mem_stripRight h)

theorem not_illegal_of_mem_cleanName {c : Char} {l : Chars}
    (h : c ∈ cleanName l) : c ∉ illegalChars := by
  simp only [cleanName] at h
  split at h
  · revert h; revert c; decide
  · exact not_illegal_of_mem_replIllegal
      (mem_of_mem_collapseDots _ c (mem_of_mem_pyStrip (mem_of_mem_pyStrip h)))

theorem splitext_append (l : Chars) : (splitext l).1 ++ (splitext l).2 = l := by
  cases h : lastDotIdx l with
  | none => simp [splitext, h]
  | some i =>
    by_cases ha : ((List.take i l).all fun c => decide (c = '.')) = true
    · simp [splitext, h, ha]
    · simp only [splitext, h]
      rw [if_neg ha]
      exact List.take_append_drop i l

theorem splitext_snd_nil {l : Chars} (h : (splitext l).2 = []) : (splitext l).1 = l := by
  have ha := splitext_append l
  rw [h, List.append_nil] at ha
  exact ha

theorem mem_of_mem_pySliceTo {c : Char} {l : Chars} {k : Int}
    (h : c ∈ pySliceTo l k) : c ∈ l := by
  unfold pySliceTo at h
  split at h <;> exact List.take_subset _ _ h

theorem cleanName_ne_nil (l : Chars) : cleanName l ≠ [] := by
  simp only [cleanName]
  split
  · decide
  · next h =>
    intro hnil
    rw [hnil] at h
    exact h rfl

theorem sanitize_filename_ne_nil (l : Chars) : sanitize_filename l ≠ [] := by
  simp only [sanitize_filename]
  by_cases hl : 150 < (cleanName l).length
  · rw [if_pos hl]
    rcases hse : (splitext (cleanName l)).2 with _ | ⟨c, e⟩
    · have h1 : (splitext (cleanName l)).1 = cleanName l := splitext_snd_nil hse
      rw [h1, List.append_nil]
      simp only [List.length_nil, Nat.cast_zero]
      unfold pySliceTo
      rw [if_pos (by decide : (0:Int) ≤ 150 - 0 - 1)]
      rw [show ((150:Int) - 0 - 1).toNat = 149 from by decide]
      intro hnil
      have hlen := congrArg List.length hnil
      rw [List.length_take, List.length_nil] at hlen
      omega
    · simp
  · rw [if_neg hl]
    exact cleanName_ne_nil l

theorem not_illegal_of_mem_sanitize {c : Char} {l : Chars}
    (h : c ∈ sanitize_filename l) : c ∉ illegalChars := by
  simp only [sanitize_filename] at h
  by_cases hl : 150 < (cleanName l).length
  · rw [if_pos hl] at h
    rcases List.mem_append.1 h with h1 | h2
    · have hx : c ∈ (splitext (cleanName l)).1 := mem_of_mem_pySliceTo h1
      have : c ∈ cleanName l := by
        rw [← splitext_append (cleanName l)]
        exact List.mem_append_left _ hx
      exact not_illegal_of_mem_cleanName this
    · have : c ∈ cleanName l := by
        rw [← splitext_append (cleanName l)]
        exact List.mem_append_right _ h2
      exact not_illegal_of_mem_cleanName this
  · rw [if_neg hl] at h
    exact not_illegal_of_mem_cleanName h

theorem sanitize_len_le {l : Chars}
    (h : (splitext (cleanName l)).2.length ≤ 149) :
    (sanitize_filename l).length ≤ 150 := by
  simp only [sanitize_filename]
  by_cases hl : 150 < (cleanName l).length
  · rw [if_pos hl, List.length_append]
    unfold pySliceTo
    have hk : (0:Int) ≤ 150 - ((splitext (cleanName l)).2.length : Int) - 1 := by omega
    rw [if_pos hk, List.length_take]
    have ht : ((150 - ((splitext (cleanName l)).2.length : Int) - 1)).toNat =
        149 - (splitext (cleanName l)).2.length := by omega
    rw [ht]
    have := Nat.min_le_left (149 - (splitext (cleanName l)).2.length)
      (splitext (cleanName l)).1.length
    omega
  · rw [if_neg hl]
    omega

/-- Claim C5 counterexample: the claim's unconditional 150-character bound is
false.  For the input `"a." ++ "b"*300` the recognized extension is 301
characters long, the stem slice `name[:150 - len(ext) - 1]` has a negative
bound and becomes empty, and the result is the untruncated 301-character
extension. -/
theorem c5_counterexample :
    ¬((sanitize_filename ('a' :: '.' :: List.replicate 300 'b')).length ≤ 150) := by
  decide

/-- Claim C5 (amended): for every string the sanitizer output is non-empty
and free of `\ / * ? : " < > |`; the 150-character bound holds whenever the
extension recognized at truncation time (the last-dot suffix of the cleaned
name) is at most 149 characters; `sanitize("")` is the fixed fallback name;
and `sanitize("a"*300 + ".mp4")` keeps the `.mp4` suffix with length ≤ 150. -/
theorem c5_sanitize_contract (l : Chars) :
    sanitize_filename l ≠ [] ∧
    (∀ c ∈ sanitize_filename l, c ∉ illegalChars) ∧
    ((splitext (cleanName l)).2.length ≤ 149 → (sanitize_filename l).length ≤ 150) ∧
    sanitize_filename "".toList = "downloaded_file".toList ∧
    ".mp4".toList.isSuffixOf (sanitize_filename (List.replicate 300 'a' ++ ".mp4".toList)) = true ∧
    (sanitize_filename (List.replicate 300 'a' ++ ".mp4".toList)).length ≤ 150 :=
  ⟨sanitize_filename_ne_nil l,
   fun _ hc => not_illegal_of_mem_sanitize hc,
   fun h => sanitize_len_le h,
   by decide, by decide, by decide⟩

/-- Witness for `c5_sanitize_contract` at the concrete input `"ab.mp4"`,
discharging the length-bound hypothesis there. -/
theorem c5_witness : (sanitize_filename "ab.mp4".toList).length ≤ 150 :=
  (c5_sanitize_contract "ab.mp4".toList).2.2.1 (by decide)

/-! ## Idempotence analysis of the sanitizer (claim C6) -/

/-- No two consecutive dots. -/
def noDoubleDot : Chars → Bool
  | [] => true
  | [_] => true
  | c :: d :: t => if c = '.' ∧ d = '.' then false else noDoubleDot (d :: t)

/-- A string already in sanitized shape: non-empty, within the length bound,
free of reserved characters and double dots, and not starting or ending with
whitespace or a dot. -/
def sanitizedForm (l : Chars) : Bool :=
  !l.isEmpty && decide (l.length ≤ 150) &&
  l.all (fun c => !decide (c ∈ illegalChars)) &&
  noDoubleDot l &&
  (match l.head? with
   | some c => !pyWs c && !decide (c = '.')
   | none => true) &&
  (match l.reverse.head? with
   | some c => !pyWs c && !decide (c = '.')
   | none => true)

theorem replIllegal_eq_self {l : Chars} (h : ∀ c ∈ l, c ∉ illegalChars) :
    replIllegal l = l := by
  induction l with
  | nil => rfl
  | cons a t ih =>
    simp only [replIllegal, List.map_cons]
    rw [if_neg (h a (List.mem_cons_self a t))]
    have ht : replIllegal t = t := ih (fun c hc => h c (List.mem_cons_of_mem a hc))
    simp only [replIllegal] at ht
    rw [ht]

theorem collapseDots_eq_self {l : Chars} (h : noDoubleDot l = true) :
    collapseDots l = l := by
  induction l with
  | nil => rfl
  | cons a t ih =>
    cases t with
    | nil => rfl
    | cons b u =>
      by_cases hab : a = '.' ∧ b = '.'
      · rw [noDoubleDot, if_pos hab] at h
        exact absurd h (by decide)
      · rw [noDoubleDot, if_neg hab] at h
        rw [collapseDots, if_neg hab, ih h]

theorem dropWhile_eq_self {p : Char → Bool} {l : Chars}
    (h : ∀ c, l.head? = some c → p c = false) : l.dropWhile p = l := by
  cases l with
  | nil => rfl
  | cons a t =>
    have := h a rfl
    simp [List.dropWhile, this]

theorem stripRight_eq_self {p : Char → Bool} {l : Chars}
    (h : ∀ c, l.reverse.head? = some c → p c = false) : stripRight p l = l := by
  unfold stripRight
  rw [dropWhile_eq_self h, List.reverse_reverse]

theorem pyStrip_eq_self {p : Char → Bool} {l : Chars}
    (h1 : ∀ c, l.head? = some c → p c = false)
    (h2 : ∀ c, l.reverse.head? = some c → p c = false) : pyStrip p l = l := by
  unfold pyStrip
  rw [dropWhile_eq_self h1]
  exact stripRight_eq_self h2

/-- A string in sanitized shape is a fixed point of `sanitize_filename`. -/
theorem sanitize_fixed {l : Chars} (h : sanitizedForm l = true) :
    sanitize_filename l = l := by
  simp only [sanitizedForm, Bool.and_eq_true] at h
  obtain ⟨⟨⟨⟨⟨h1, h2⟩, h3⟩, h4⟩, h5⟩, h6⟩ := h
  have hne : l ≠ [] := by
    intro hnil
    rw [hnil] at h1
    exact absurd h1 (by decide)
  have hlen : l.length ≤ 150 := of_decide_eq_true h2
  have hill : ∀ c ∈ l, c ∉ illegalChars := by
    intro c hc
    have := List.all_eq_true.1 h3 c hc
    simpa using this
  have hhead : ∀ c, l.head? = some c → pyWs c = false ∧ c ≠ '.' := by
    intro c hc
    rw [hc] at h5
    simp only [Bool.and_eq_true, Bool.not_eq_true'] at h5
    exact ⟨h5.1, by simpa using h5.2⟩
  have hlast : ∀ c, l.reverse.head? = some c → pyWs c = false ∧ c ≠ '.' := by
    intro c hc
    rw [hc] at h6
    simp only [Bool.and_eq_true, Bool.not_eq_true'] at h6
    exact ⟨h6.1, by simpa using h6.2⟩
  have e1 : replIllegal l = l := replIllegal_eq_self hill
  have e2 : collapseDots l = l := collapseDots_eq_self h4
  have e3 : pyStrip pyWs l = l :=
    pyStrip_eq_self (fun c hc => (hhead c hc).1) (fun c hc => (hlast c hc).1)
  have e4 : pyStrip isDot l = l := by
    refine pyStrip_eq_self (fun c hc => ?_) (fun c hc => ?_)
    · simp only [isDot]
      exact decide_eq_false (hhead c hc).2
    · simp only [isDot]
      exact decide_eq_false (hlast c hc).2
  have ecn : cleanName l = l := by
    simp only [cleanName, e1, e2, e3, e4]
    rw [if_neg (by simpa using hne)]
  simp only [sanitize_filename, ecn]
  rw [if_neg (by omega)]

/-- Claim C6 counterexample: the sanitizer is not idempotent.  For the input
`". a ."` the dot strip exposes surrounding whitespace: one application gives
`" a "`, a second gives `"a"`. -/
theorem c6_counterexample :
    sanitize_filename (sanitize_filename ('.' :: ' ' :: 'a' :: ' ' :: '.' :: [])) ≠
      sanitize_filename ('.' :: ' ' :: 'a' :: ' ' :: '.' :: []) := by
  decide

/-- Claim C6 (amended): `sanitize(sanitize(x)) = sanitize(x)` holds whenever
`sanitize(x)` is in sanitized shape (non-empty, ≤ 150 characters, no reserved
characters, no consecutive dots, and not starting or ending with whitespace or
a dot); full idempotence fails because stripping dots can expose whitespace
(`c6_counterexample`). -/
theorem c6_idempotent_on_sanitized (x : Chars)
    (h : sanitizedForm (sanitize_filename x) = true) :
    sanitize_filename (sanitize_filename x) = sanitize_filename x :=
  sanitize_fixed h

/-- Witness for `c6_idempotent_on_sanitized` at the concrete input `"a.mp4"`. -/
theorem c6_witness :
    sanitize_filename (sanitize_filename "a.mp4".toList) = sanitize_filename "a.mp4".toList :=
  c6_idempotent_on_sanitized "a.mp4".toList (by decide)

/-! ## Claims about the router and providers -/

/-- Claim C10: after the extractor finishes, a non-empty temporary directory
yields the byte content and name of the first `os.listdir` entry (the
caller's hint is discarded); an empty directory yields no payload and the
fixed error text (streamer.py:279-294). -/
theorem c10_ydl_artifact (link hint : Chars) (env : Env) :
    (env.ydlDl (ydlBaseName hint) = YdlDlOutcome.ok [] →
      download_with_ydl link hint env =
        (none, "Download failed (no file generated).".toList)) ∧
    (∀ f fs, env.ydlDl (ydlBaseName hint) = YdlDlOutcome.ok (f :: fs) →
      download_with_ydl link hint env = (some f.2, f.1)) := by
  constructor
  · intro h
    simp [download_with_ydl, h]
  · intro f fs h
    simp [download_with_ydl, h]

def envC10 : Env :=
  { env0 with ydlDl := fun _ => YdlDlOutcome.ok [("a.mp4".toList, [1, 2])] }

/-- Witness for `c10_ydl_artifact` at a concrete one-file directory. -/
theorem c10_witness :
    download_with_ydl "https://youtube.com/w".toList "v.mp4".toList envC10 =
      (some [1, 2], "a.mp4".toList) :=
  (c10_ydl_artifact "https://youtube.com/w".toList "v.mp4".toList envC10).2
    ("a.mp4".toList, [1, 2]) [] rfl

/-- Claim C8: for a `drive.google.com` URL, a share URL without a `/d/<id>`
segment fails at once with the parse error and no provider operation runs;
and a HEAD whose `Content-Type` contains `text/html` fails with the
access-denied page error after only the HEAD — in both cases no other
provider is attempted. -/
theorem c8_drive_terminal (link : Chars) (env : Env)
    (hs : schemeOk link = true)
    (hd : isSubstr "drive.google.com".toList (domainOf link) = true) :
    (driveIdOf link = none → route link env = ⟨[], [Ev.err Msg.driveParseFail]⟩) ∧
    (∀ id st ct, driveIdOf link = some id →
      env.head (driveURL id) = HeadOutcome.resp st ct → st < 400 →
      isSubstr "text/html".toList (lowerL (ct.getD [])) = true →
      route link env = ⟨[Call.driveHead], [Ev.err Msg.driveHtmlPage]⟩) := by
  constructor
  · intro h
    simp at hd
    simp [route, hs, hd, driveFlow, get_drive_download_link, h]
  · intro id st ct h1 h2 h3 h4
    simp at hd h4
    simp [route, hs, hd, driveFlow, get_drive_download_link, h1, h2, h4,
      show ¬(400 ≤ st) from by omega]

/-- Witness for `c8_drive_terminal`: a Drive link without `/d/<id>` is
rejected with the parse error and performs no network operation. -/
theorem c8_witness :
    route "https://drive.google.com/open?id=abc".toList env0 =
      ⟨[], [Ev.err Msg.driveParseFail]⟩ :=
  (c8_drive_terminal "https://drive.google.com/open?id=abc".toList env0
    (by decide) (by decide)).1 (by decide)

def envIG : Env := { env0 with instaFetch := InstaFetch.loginRequired }

/-- Claim C7 counterexample: the identifier search runs over the whole URL,
not the path.  For `https://instagram.com/stories?u=/p/abc` the path has no
`/p/`, `/reel/` or `/tv/` segment, yet the provider finds `/p/abc` in the
query string and proceeds to the metadata fetch instead of failing with the
format (parsing) error. -/
theorem c7_counterexample :
    igShortcode (pathOf "https://instagram.com/stories?u=/p/abc".toList) = none ∧
    isSubstr "instagram.com".toList
      (domainOf "https://instagram.com/stories?u=/p/abc".toList) = true ∧
    route "https://instagram.com/stories?u=/p/abc".toList envIG =
      ⟨[Call.igFetch], [Ev.err Msg.igLogin]⟩ ∧
    route "https://instagram.com/stories?u=/p/abc".toList envIG ≠
      ⟨[], [Ev.err Msg.igBadFormat]⟩ := by
  decide

/-- Claim C7 (amended): for every instagram.com URL on which the shortcode
regex finds no `/p/`, `/reel/` or `/tv/` identifier anywhere in the URL
string, the provider fails with the format (parsing) error before any
network operation, and no further provider is invoked. -/
theorem c7_ig_no_identifier_terminal (link : Chars) (env : Env)
    (hs : schemeOk link = true)
    (hd : isSubstr "drive.google.com".toList (domainOf link) = false)
    (hig : isSubstr "instagram.com".toList (domainOf link) = true)
    (hsc : igShortcode link = none) :
    route link env = ⟨[], [Ev.err Msg.igBadFormat]⟩ := by
  simp at hd hig
  simp [route, hs, hd, hig, instaFlow, hsc]

/-- Witness for `c7_ig_no_identifier_terminal` at a profile URL. -/
theorem c7_witness :
    route "https://instagram.com/someuser".toList env0 = ⟨[], [Ev.err Msg.igBadFormat]⟩ :=
  c7_ig_no_identifier_terminal "https://instagram.com/someuser".toList env0
    (by decide) (by decide) (by decide) (by decide)

/-- Claim C3 counterexample: the input `" https://a"` (leading space) does
not begin with `http://` or `https://`, yet routing does not reject it with
the invalid-URL error — the check runs on the stripped string, and a
provider is invoked. -/
theorem c3_counterexample :
    "http://".toList.isPrefixOf " https://a".toList = false ∧
    "https://".toList.isPrefixOf " https://a".toList = false ∧
    route " https://a".toList env0 ≠ ⟨[], [Ev.err Msg.invalidURL]⟩ ∧
    (route " https://a".toList env0).calls ≠ [] := by
  decide

/-- Claim C3 (amended): every input whose stripped form does not begin with
`http://` or `https://` is rejected with the invalid-URL error before any
network activity, with no provider invoked. -/
theorem c3_invalid_scheme_rejected (link : Chars) (env : Env)
    (h1 : "http://".toList.isPrefixOf (pyStrip pyWs link) = false)
    (h2 : "https://".toList.isPrefixOf (pyStrip pyWs link) = false) :
    route link env = ⟨[], [Ev.err Msg.invalidURL]⟩ := by
  have hs : schemeOk link = false := by
    unfold schemeOk
    rw [h1, h2]
    simp
  simp [route, hs]

/-- Witness for `c3_invalid_scheme_rejected` at `"ftp://x"`. -/
theorem c3_witness :
    route "ftp://x".toList env0 = ⟨[], [Ev.err Msg.invalidURL]⟩ :=
  c3_invalid_scheme_rejected "ftp://x".toList env0 (by decide) (by decide)

def respTTFail : TtResp := { code := some 1, data := none, msg := some "boom".toList }

def envC2 : Env :=
  { env0 with tiktokApi := TtApiOutcome.resp 200 (TtBody.json respTTFail),
              get := fun _ => GetOutcome.resp respOk }

/-- Claim C2 counterexample: a TikTok API failure is surfaced directly to the
user and the Generic HTTP provider is never tried.  With the resolution API
answering status code 1 (non-success) and a world in which a direct GET would
succeed, `route` emits the API error and invokes only the API. -/
theorem c2_counterexample :
    route "https://www.tiktok.com/@u/video/7".toList envC2 =
      ⟨[Call.ttApi], [Ev.err (Msg.ttApiErr "boom".toList)]⟩ ∧
    Call.genGet ∉ (route "https://www.tiktok.com/@u/video/7".toList envC2).calls := by
  decide

/-- Claim C2 (amended): for every tiktok.com URL whose API resolution returns
a non-success envelope or a malformed/non-JSON response, the failure is
surfaced directly to the end user as an error and no further provider is
invoked (only the API call runs). -/
theorem c2_tiktok_failure_terminal (link : Chars) (env : Env)
    (hs : schemeOk link = true)
    (hd : isSubstr "drive.google.com".toList (domainOf link) = false)
    (hi : isSubstr "instagram.com".toList (domainOf link) = false)
    (ht : isSubstr "tiktok.com".toList (domainOf link) = true) :
    (∀ st r, env.tiktokApi = TtApiOutcome.resp st (TtBody.json r) → st < 400 →
      ttSuccess r = none →
      route link env =
        ⟨[Call.ttApi], [Ev.err (Msg.ttApiErr (r.msg.getD "Unknown API error".toList))]⟩) ∧
    (∀ st m, env.tiktokApi = TtApiOutcome.resp st (TtBody.notJson m) → st < 400 →
      route link env = ⟨[Call.ttApi], [Ev.err (Msg.ttJson m)]⟩) := by
  constructor
  · intro st r h1 h2 h3
    simp at hd hi ht
    simp [route, hs, hd, hi, ht, tiktokFlow, h1, h3, show ¬(400 ≤ st) from by omega]
  · intro st m h1 h2
    simp at hd hi ht
    simp [route, hs, hd, hi, ht, tiktokFlow, h1, show ¬(400 ≤ st) from by omega]

/-- Witness for `c2_tiktok_failure_terminal` at the concrete environment of
the counterexample. -/
theorem c2_witness :
    route "https://www.tiktok.com/@u/video/7".toList envC2 =
      ⟨[Call.ttApi],
       [Ev.err (Msg.ttApiErr (respTTFail.msg.getD "Unknown API error".toList))]⟩ :=
  (c2_tiktok_failure_terminal "https://www.tiktok.com/@u/video/7".toList envC2
    (by decide) (by decide) (by decide) (by decide)).1 200 respTTFail rfl
    (by decide) (by decide)

def infoC1 : InfoDict :=
  { filesize_approx := some 1000, filesize := none, requested_formats := none,
    format_id := none, title := some "v".toList,
    underscore_filename := some "v.mp4".toList, ext := some "mp4".toList }

def envC1x : Env :=
  { env0 with ydlInfo := ProbeOutcome.ok infoC1,
              ydlDl := fun _ =>
                YdlDlOutcome.dlErr "ERROR: Unsupported URL: https://youtube.com/watch?v=zz".toList,
              get := fun _ => GetOutcome.resp respOk }

/-- Claim C1 counterexample: at the download phase an Unsupported-URL failure
does not fall back to Generic HTTP.  The probe succeeds (size 1000), the
download then fails with an Unsupported-URL DownloadError, a direct GET would
succeed, yet `route` surfaces the yt-dlp failure and never invokes the
Generic HTTP provider. -/
theorem c1_counterexample :
    route "https://youtube.com/watch?v=zz".toList envC1x =
      ⟨[Call.ydlProbe, Call.ydlDl],
       [Ev.err (Msg.ydlDlFailed "Error: Unsupported URL for yt-dlp.".toList)]⟩ ∧
    Call.genGet ∉ (route "https://youtube.com/watch?v=zz".toList envC1x).calls := by
  decide

/-- Claim C1 (amended): when the Generic Video Extractor's probe fails with
an Unsupported-URL DownloadError, `route` falls back to the Generic HTTP
provider; when that provider succeeds, the returned artifact is the Generic
HTTP artifact and exactly two provider operations run (the extractor probe
once, then the generic GET once).  At the download phase the same failure is
terminal (`c1_counterexample`). -/
theorem c1_probe_unsupported_falls_back (link : Chars) (env : Env) (s : Chars) (r : HttpResp)
    (hs : schemeOk link = true)
    (hd : isSubstr "drive.google.com".toList (domainOf link) = false)
    (hi : isSubstr "instagram.com".toList (domainOf link) = false)
    (ht : isSubstr "tiktok.com".toList (domainOf link) = false)
    (hy : is_ydl_target (domainOf link) = true)
    (hinfo : env.ydlInfo = ProbeOutcome.dlErr s)
    (hsub : isSubstr "Unsupported URL".toList s = true)
    (hget : env.get link = GetOutcome.resp r)
    (hst : r.status < 400) :
    route link env =
      ⟨[Call.ydlProbe, Call.genGet],
       [Ev.warn Msg.ydlUnsupportedWarn, genericSuccessEv link r]⟩ := by
  have hpr : get_video_info_ydl env = (none, "Unsupported URL".toList) := by
    simp at hsub
    simp [get_video_info_ydl, hinfo, hsub]
  simp at hd hi ht
  simp [route, hs, hd, hi, ht, hy, ydlFlow, hpr, ydlFlowWith, ydlAfter,
    download_generic, hget, show ¬(400 ≤ r.status) from by omega]
  decide

def envC1w : Env :=
  { env0 with ydlInfo := ProbeOutcome.dlErr "ERROR: Unsupported URL: zz".toList,
              get := fun _ => GetOutcome.resp respOk }

/-- Witness for `c1_probe_unsupported_falls_back` at a concrete youtube link
and environment. -/
theorem c1_witness :
    route "https://youtube.com/watch?v=1".toList envC1w =
      ⟨[Call.ydlProbe, Call.genGet],
       [Ev.warn Msg.ydlUnsupportedWarn,
        genericSuccessEv "https://youtube.com/watch?v=1".toList respOk]⟩ :=
  c1_probe_unsupported_falls_back "https://youtube.com/watch?v=1".toList envC1w
    "ERROR: Unsupported URL: zz".toList respOk (by decide) (by decide) (by decide)
    (by decide) (by decide) rfl (by decide) rfl (by decide)

def infoC9 : InfoDict :=
  { filesize_approx := none, filesize := none, requested_formats := none,
    format_id := none, title := some "vid".toList,
    underscore_filename := some "vid.mp4".toList, ext := some "mp4".toList }

def envC9 : Env :=
  { env0 with ydlInfo := ProbeOutcome.ok infoC9,
              ydlDl := fun _ => YdlDlOutcome.ok [("vid.mp4".toList, [3])] }

/-- Claim C9 counterexample: a probe that produces no size estimate is
fatal, not non-fatal.  The probe succeeds with a filename but no size field,
the downloader would succeed, yet `route` aborts with the could-not-get-info
error and the download is never invoked. -/
theorem c9_counterexample :
    route "https://youtube.com/w".toList envC9 =
      ⟨[Call.ydlProbe], [Ev.err (Msg.ydlNoInfo "vid.mp4".toList)]⟩ ∧
    Call.ydlDl ∉ (route "https://youtube.com/w".toList envC9).calls := by
  decide

/-- Claim C9 (amended): on the Generic Video Extractor path, the probe's
size estimate gates the download on `is not None`.  When the probe yields no
size value (`None`) the request is aborted with an error and the download
does not proceed; when it yields the falsy size `0`, the size display
degrades to `Unknown Size` and the download does proceed — the success
button then appears for a non-empty downloaded payload, while a zero-byte
payload is falsy at the `if file_data:` check and surfaces the
download-failed error. -/
theorem c9_probe_size_gate (link : Chars) (env : Env) (fn : Chars)
    (hs : schemeOk link = true)
    (hd : isSubstr "drive.google.com".toList (domainOf link) = false)
    (hi : isSubstr "instagram.com".toList (domainOf link) = false)
    (ht : isSubstr "tiktok.com".toList (domainOf link) = false)
    (hy : is_ydl_target (domainOf link) = true)
    (hbad : fn ∉ badAnalysis) :
    (get_video_info_ydl env = (none, fn) →
      route link env = ⟨[Call.ydlProbe], [Ev.err (Msg.ydlNoInfo fn)]⟩) ∧
    sizeInfoOf (some 0) = SizeInfo.unknown ∧
    (∀ f fs2, get_video_info_ydl env = (some 0, fn) →
      env.ydlDl (ydlBaseName fn) = YdlDlOutcome.ok (f :: fs2) → f.2 ≠ [] →
      route link env =
        ⟨[Call.ydlProbe, Call.ydlDl],
         [Ev.button (finalNameOf f.1 fn) (mimeFor (finalNameOf f.1 fn)) f.2]⟩) ∧
    (∀ nm fs2, get_video_info_ydl env = (some 0, fn) →
      env.ydlDl (ydlBaseName fn) = YdlDlOutcome.ok ((nm, []) :: fs2) →
      route link env =
        ⟨[Call.ydlProbe, Call.ydlDl], [Ev.err (Msg.ydlDlFailed nm)]⟩) := by
  have hne : fn ≠ "Unsupported URL".toList := by
    intro he
    apply hbad
    rw [he]
    decide
  simp only [ne_eq] at hne
  simp at hne
  refine ⟨?_, by decide, ?_, ?_⟩
  · intro hpr
    simp at hd hi ht
    simp [route, hs, hd, hi, ht, hy, ydlFlow, hpr, ydlFlowWith, ydlAfter, hbad, hne]
  · intro f fs2 hpr hdl hnb
    simp at hd hi ht
    simp [route, hs, hd, hi, ht, hy, ydlFlow, hpr, ydlFlowWith, ydlAfter, hbad,
      download_with_ydl, hdl, truthyBytes, hnb]
  · intro nm fs2 hpr hdl
    simp at hd hi ht
    simp [route, hs, hd, hi, ht, hy, ydlFlow, hpr, ydlFlowWith, ydlAfter, hbad,
      download_with_ydl, hdl, truthyBytes]

/-- Witness for `c9_probe_size_gate`: the abort at a concrete sizeless probe. -/
theorem c9_witness :
    route "https://youtube.com/w".toList envC9 =
      ⟨[Call.ydlProbe], [Ev.err (Msg.ydlNoInfo "vid.mp4".toList)]⟩ :=
  (c9_probe_size_gate "https://youtube.com/w".toList envC9 "vid.mp4".toList
    (by decide) (by decide) (by decide) (by decide) (by decide) (by decide)).1
    (by decide)

/-- Claim C4: the `ydl_domains` allow-list is missing a comma between
`'x.com'` and `'vimeo.com'`, so Python concatenates them into the single
entry `'x.comvimeo.com'`.  Consequently `vimeo.com` and `x.com` URLs — which
the claim (and the app's own supported-sites text) say go to the Generic
Video Extractor — classify to Generic HTTP only, while the youtube example
of the claim does hold. -/
theorem c4_missing_comma_bug :
    classify "https://vimeo.com/12345".toList = some [Provider.genericHTTP] ∧
    classify "https://x.com/user/status/1".toList = some [Provider.genericHTTP] ∧
    classify "https://m.youtube.com/watch?v=abc".toList =
      some [Provider.videoExtractor, Provider.genericHTTP] ∧
    "x.comvimeo.com".toList ∈ ydl_domains ∧
    "vimeo.com".toList ∉ ydl_domains ∧
    "x.com".toList ∉ ydl_domains ∧
    is_ydl_target "vimeo.com".toList = false ∧
    is_ydl_target "x.com".toList = false := by
  decide
